import Mathlib

/-!
Shallow embedding of the `TrendingPosts` React component of the repository
`Sentiment_Analysis-of-social-media`.

The repository holds two variants of the same component:

* `src/unnamed/part_000` (header comment names it
  `frontend/src/components/TrendingPosts.js`): resolves the backend base URL
  from `process.env.REACT_APP_BACKEND_URL` and throws when it is unset,
  validates that the response body is an array, renders each item's
  sentiment, text and `score?.toFixed(2) ?? 'N/A'`, and shows a
  "No trending posts found." placeholder for an empty list.  This variant is
  embedded below at top level.

* `src/frontend/src/components/TrendingPosts.js`: falls back to a default
  base URL `http://127.0.0.1:5001` when the environment variable is unset,
  performs no response-shape validation, sets `isLoading` at the start of a
  cycle only when `lastUpdated` is still null, and renders each element
  directly.  This variant is embedded in the `Frontend` namespace.

Modelling conventions:

* JavaScript strings are `String`; a missing/undefined string and the empty
  string are both falsy under `||` and `!`, so optional strings are modelled
  as `Option String` and coalesced with `Option.getD ""` before the falsy
  test (`jsOr`), which is observationally identical for every use in the
  source.
* `new Date()` is modelled as an abstract `Nat` timestamp supplied as the
  cycle's `now` input.
* JavaScript numbers carried by `score` are modelled as exact rationals;
  `toFixed(2)` is modelled by ECMAScript's specified rounding rule
  (nearest, ties toward the larger value) on exact rationals.
* The outcome the network would deliver for a cycle is an explicit
  `NetResponse` input; `axios.get` either fulfills with a parsed JSON body
  (`ok`) or rejects with an error object (`httpErr`) optionally carrying
  `response.data.error`.
-/

/-- One element of the backend's JSON array, as the render code reads it:
`trend.text`, `trend.sentiment` and optional numeric `trend.score`. -/
structure TrendItem where
  text : String
  sentiment : String
  score : Option Rat
deriving DecidableEq

/-- A parsed JSON response body: either an array of trend items or some
non-array JSON value (the `value` field merely distinguishes such values;
the component only ever tests `Array.isArray` on it). -/
inductive Payload where
  | arr (items : List TrendItem)
  | nonArray (value : String)
deriving DecidableEq

/-- The error object caught by the `catch` block: `err.message` and the
optional server-supplied `err.response?.data?.error` text. -/
structure JsError where
  message : String
  responseError : Option String
deriving DecidableEq

/-- Outcome the network would deliver for one issued request: a fulfilled
response with a parsed body, or a rejection (non-2xx or transport failure). -/
inductive NetResponse where
  | ok (data : Payload)
  | httpErr (e : JsError)
deriving DecidableEq

/-- The process environment as read by the component. -/
structure Env where
  REACT_APP_BACKEND_URL : Option String
deriving DecidableEq

/-- JavaScript truthiness test for an optional string: `undefined` and `""`
are falsy (`!apiBase` in the source). -/
def jsFalsy : Option String → Bool
  | none => true
  | some s => s == ""

/-- JavaScript `a || b` on strings, with absence represented as `""`. -/
def jsOr (a b : String) : String :=
  if a = "" then b else a

/-- The component state held in the four `useState` hooks of
`src/unnamed/part_000`: `trends`, `isLoading`, `error`, `lastUpdated`. -/
structure PollState where
  trends : List TrendItem
  isLoading : Bool
  error : String
  lastUpdated : Option Nat
deriving DecidableEq

/-- `useState([])`, `useState(true)`, `useState('')`, `useState(null)`. -/
def initialState : PollState :=
  { trends := [], isLoading := true, error := "", lastUpdated := none }

/-- Lines 12-13 of `src/unnamed/part_000`: `setIsLoading(true); setError('')`. -/
def startPhase (s : PollState) : PollState :=
  { s with isLoading := true, error := "" }

/-- Line 26 of `src/unnamed/part_000`:
`setError(err.response?.data?.error || err.message || 'Could not load trends.')`. -/
def displayedMessage (e : JsError) : String :=
  jsOr (e.responseError.getD "") (jsOr e.message "Could not load trends.")

/-- The `catch` block's state effect. -/
def catchPhase (e : JsError) (s : PollState) : PollState :=
  { s with error := displayedMessage e }

/-- The `finally` block: `setIsLoading(false)`. -/
def finallyPhase (s : PollState) : PollState :=
  { s with isLoading := false }

/-- The synchronous part of `fetchTrends` in `src/unnamed/part_000` (up to
the first `await`): set loading, clear the error, resolve `apiBase` and, if
it is falsy, throw `new Error("REACT_APP_BACKEND_URL not set in .env")`,
which the local `catch`/`finally` handle synchronously.  Returns the state
together with `true` when the HTTP request was issued (the function
suspended on `await axios.get`). -/
def fetchSync (env : Env) (s : PollState) : PollState × Bool :=
  let s1 := startPhase s
  if jsFalsy env.REACT_APP_BACKEND_URL then
    (finallyPhase (catchPhase
      { message := "REACT_APP_BACKEND_URL not set in .env", responseError := none } s1), false)
  else
    (s1, true)

/-- The continuation of `fetchTrends` after `await axios.get` resolves:
`if (!Array.isArray(response.data)) throw new Error("Unexpected backend
response"); setTrends(response.data); setLastUpdated(new Date())`, with the
`catch` and `finally` blocks. -/
def fetchResume (net : NetResponse) (now : Nat) (s : PollState) : PollState :=
  match net with
  | NetResponse.ok (Payload.arr items) =>
      finallyPhase { s with trends := items, lastUpdated := some now }
  | NetResponse.ok (Payload.nonArray _) =>
      finallyPhase (catchPhase
        { message := "Unexpected backend response", responseError := none } s)
  | NetResponse.httpErr e =>
      finallyPhase (catchPhase e s)

/-- Result of one complete fetch cycle: the final component state and
whether an HTTP request was issued during the cycle. -/
structure CycleResult where
  state : PollState
  httpRequested : Bool
deriving DecidableEq

/-- One complete run of `fetchTrends` (lines 11-30 of
`src/unnamed/part_000`), given the environment, the outcome the network
would deliver, and the current time. -/
def fetchTrends (env : Env) (net : NetResponse) (now : Nat) (s : PollState) : CycleResult :=
  match fetchSync env s with
  | (s1, false) => { state := s1, httpRequested := false }
  | (s1, true) => { state := fetchResume net now s1, httpRequested := true }

/-- The inputs that determine one fetch cycle. -/
structure CycleInput where
  env : Env
  net : NetResponse
  now : Nat
deriving DecidableEq

/-- The state after one fetch cycle. -/
def step (i : CycleInput) (s : PollState) : PollState :=
  (fetchTrends i.env i.net i.now s).state

/-- Successive fetch cycles (on mount and then every 300000 ms), earliest
input first. -/
def runCycles : List CycleInput → PollState → PollState
  | [], s => s
  | i :: t, s => runCycles t (step i s)

/-- The array delivered by a cycle that reaches `setTrends`, i.e. a cycle
with the configuration set and a fulfilled array response; `none` for every
failing cycle. -/
def successData (i : CycleInput) : Option (List TrendItem) :=
  if jsFalsy i.env.REACT_APP_BACKEND_URL then none
  else
    match i.net with
    | NetResponse.ok (Payload.arr items) => some items
    | NetResponse.ok (Payload.nonArray _) => none
    | NetResponse.httpErr _ => none

/-- Whether a cycle succeeds (reaches `setTrends`/`setLastUpdated`). -/
def cycleSucceeds (i : CycleInput) : Bool :=
  (successData i).isSome

/-- The timestamp a successful cycle stores in `lastUpdated`. -/
def successTime (i : CycleInput) : Option Nat :=
  match successData i with
  | some _ => some i.now
  | none => none

/-- The error object the `catch` block receives on a failing cycle:
the config error, the schema error, or the axios rejection. -/
def thrownError (i : CycleInput) : Option JsError :=
  if jsFalsy i.env.REACT_APP_BACKEND_URL then
    some { message := "REACT_APP_BACKEND_URL not set in .env", responseError := none }
  else
    match i.net with
    | NetResponse.ok (Payload.arr _) => none
    | NetResponse.ok (Payload.nonArray _) =>
        some { message := "Unexpected backend response", responseError := none }
    | NetResponse.httpErr e => some e

/-- The `error` state a cycle leaves behind. -/
def cycleErrorMessage (i : CycleInput) : String :=
  match thrownError i with
  | some e => displayedMessage e
  | none => ""

/-- Rightmost (most recent) defined value of `f` over a cycle list. -/
def lastSome {α : Type} (f : CycleInput → Option α) : List CycleInput → Option α
  | [] => none
  | i :: t =>
      match lastSome f t with
      | some d => some d
      | none => f i

/-- First-defined choice used to express frame conditions on optional state. -/
def latestOr {α : Type} (o : Option α) (prev : Option α) : Option α :=
  match o with
  | some t => some t
  | none => prev

/-- ECMAScript `toFixed(2)` on an exact rational: the integer n minimising
the distance of n/100 to the value, ties resolved toward the larger n; that
integer is `⌊q·100 + 1/2⌋`, written on the reduced numerator and denominator
as `⌊(200·num + den) / (2·den)⌋` so that it evaluates by integer
arithmetic. -/
def toFixed2 (q : Rat) : String :=
  let n : Int := Int.fdiv (200 * q.num + Int.ofNat q.den) (2 * Int.ofNat q.den)
  let sign : String := if n < 0 then "-" else ""
  let m : Nat := n.natAbs
  let fracStr : String := if m % 100 < 10 then "0" ++ toString (m % 100) else toString (m % 100)
  sign ++ toString (m / 100) ++ "." ++ fracStr

/-- What one `<li>` of `src/unnamed/part_000` shows: the sentiment line, the
text line, and the score line `score?.toFixed(2) ?? 'N/A'`. -/
structure EntryView where
  sentiment : String
  text : String
  score : String
deriving DecidableEq

/-- Lines 58-72 of `src/unnamed/part_000`: the view of one trend item. -/
def renderItem (t : TrendItem) : EntryView :=
  { sentiment := t.sentiment
    text := t.text
    score :=
      match t.score with
      | some q => toFixed2 q
      | none => "N/A" }

/-- The four mutually exclusive bodies the component can render. -/
inductive RenderBody where
  | loading
  | errorMsg (msg : String)
  | noResults
  | list (entries : List EntryView)
deriving DecidableEq

/-- The rendered output: the header's optional `Updated at` timestamp and
the body. -/
structure RenderOutput where
  updatedAt : Option Nat
  body : RenderBody
deriving DecidableEq

/-- Lines 38-77 of `src/unnamed/part_000`: `isLoading ? loading : error ?
error text : trends.length === 0 ? placeholder : list`. -/
def render (s : PollState) : RenderOutput :=
  { updatedAt := s.lastUpdated
    body :=
      if s.isLoading then RenderBody.loading
      else if s.error ≠ "" then RenderBody.errorMsg s.error
      else if s.trends.length = 0 then RenderBody.noResults
      else RenderBody.list (s.trends.map renderItem) }

/-- The entries actually shown: the list body's entries, nothing for the
loading, error and placeholder bodies. -/
def entriesShown : RenderBody → List EntryView
  | RenderBody.list es => es
  | _ => []

namespace Frontend

/-- The component state of `src/frontend/src/components/TrendingPosts.js`;
`setTrends(response.data)` stores the raw body there without validation, so
`trends` is an arbitrary JSON payload. -/
structure PollState where
  trends : Payload
  isLoading : Bool
  error : String
  lastUpdated : Option Nat
deriving DecidableEq

/-- `useState([])`, `useState(true)`, `useState('')`, `useState(null)`. -/
def initialState : PollState :=
  { trends := Payload.arr [], isLoading := true, error := "", lastUpdated := none }

/-- Lines 12-13 of `src/frontend/src/components/TrendingPosts.js`:
`if (!lastUpdated) setIsLoading(true); setError('')`. -/
def startPhase (s : PollState) : PollState :=
  { s with isLoading := if s.lastUpdated = none then true else s.isLoading
           error := "" }

/-- Line 17 of `src/frontend/src/components/TrendingPosts.js`:
`process.env.REACT_APP_BACKEND_URL || "http://127.0.0.1:5001"` — always
truthy, so this variant always issues the request. -/
def apiBase (env : Env) : String :=
  jsOr (env.REACT_APP_BACKEND_URL.getD "") "http://127.0.0.1:5001"

/-- `setIsLoading(false)` in the `finally` block. -/
def finallyStep (s : PollState) : PollState :=
  { s with isLoading := false }

/-- One run of `fetchTrends` (lines 11-27 of
`src/frontend/src/components/TrendingPosts.js`): no config check, no array
check; any fulfilled response stores its raw body and the timestamp, any
rejection sets `err.response?.data?.error || 'Could not load trends.'`. -/
def fetchTrends (env : Env) (net : NetResponse) (now : Nat) (s : PollState) : PollState :=
  let _base := apiBase env
  let s1 := startPhase s
  match net with
  | NetResponse.ok data =>
      finallyStep { s1 with trends := data, lastUpdated := some now }
  | NetResponse.httpErr e =>
      finallyStep { s1 with error := jsOr (e.responseError.getD "") "Could not load trends." }

/-- The state after one fetch cycle of this variant. -/
def step (i : CycleInput) (s : PollState) : PollState :=
  fetchTrends i.env i.net i.now s

/-- Successive fetch cycles of this variant, earliest input first. -/
def runCycles : List CycleInput → PollState → PollState
  | [], s => s
  | i :: t, s => runCycles t (step i s)

/-- Whether a cycle of this variant succeeds: any fulfilled response reaches
`setTrends`/`setLastUpdated` (there is no validation). -/
def succeeds (i : CycleInput) : Bool :=
  match i.net with
  | NetResponse.ok _ => true
  | NetResponse.httpErr _ => false

/-- The timestamp a successful cycle of this variant stores. -/
def successTime (i : CycleInput) : Option Nat :=
  if succeeds i then some i.now else none

end Frontend

/-!
Event-level model of the `useEffect` lifecycle (lines 32-36 of
`src/unnamed/part_000`, identical in structure in the other variant):

```
useEffect(() => {
    fetchTrends();
    const intervalId = setInterval(fetchTrends, 300000);
    return () => clearInterval(intervalId);
}, [fetchTrends]);
```

On mount the effect runs one cycle and arms the interval; each interval tick
runs a cycle; the cleanup clears the interval and nothing else — in
particular the completion handler of a fetch that is still in flight runs
unguarded when its response arrives.  `fetchTrends` is split at its `await`
point: the synchronous part (`fetchSync`) runs when a cycle starts, the rest
(`fetchResume`) runs when the response arrives.
-/

/-- The whole-page state: the component state, whether the interval timer is
armed, whether the component is still mounted, the queue of in-flight
requests (network outcome and arrival time), a count of started cycles, and
an instrumentation counter of state updates applied after unmount. -/
structure AppState where
  comp : PollState
  timerActive : Bool
  mounted : Bool
  inFlight : List (NetResponse × Nat)
  startedFetches : Nat
  postUnmountUpdates : Nat
deriving DecidableEq

/-- Events: an interval tick (with that cycle's environment and eventual
network outcome), the arrival of the oldest in-flight response, and the
teardown of the component. -/
inductive AppEv where
  | tick (env : Env) (net : NetResponse) (now : Nat)
  | resolveNext
  | unmount
deriving DecidableEq

/-- Start one fetch cycle: run the synchronous part; if the request was
issued, enqueue its pending completion. -/
def startCycle (env : Env) (net : NetResponse) (now : Nat) (a : AppState) : AppState :=
  match fetchSync env a.comp with
  | (s1, false) =>
      { a with comp := s1, startedFetches := a.startedFetches + 1 }
  | (s1, true) =>
      { a with comp := s1
               inFlight := a.inFlight ++ [(net, now)]
               startedFetches := a.startedFetches + 1 }

/-- One lifecycle event.  A tick runs a cycle only while the interval is
armed (`clearInterval` stops later ticks).  A resolving response runs
`fetchResume` on the component state unconditionally — the source has no
mounted-ness guard — and the instrumentation counter records when that
happens after unmount.  Unmount runs the effect cleanup: it only clears the
interval. -/
def appStep (a : AppState) : AppEv → AppState
  | AppEv.tick env net now =>
      if a.timerActive then startCycle env net now a else a
  | AppEv.resolveNext =>
      match a.inFlight with
      | [] => a
      | (net, now) :: rest =>
          { a with comp := fetchResume net now a.comp
                   inFlight := rest
                   postUnmountUpdates :=
                     a.postUnmountUpdates + (if a.mounted then 0 else 1) }
  | AppEv.unmount =>
      { a with timerActive := false, mounted := false }

/-- Mount: the effect body runs one cycle immediately and arms the timer. -/
def mountApp (env : Env) (net : NetResponse) (now : Nat) : AppState :=
  startCycle env net now
    { comp := initialState, timerActive := true, mounted := true
      inFlight := [], startedFetches := 0, postUnmountUpdates := 0 }

/-- A sequence of lifecycle events after mount. -/
def runApp (a : AppState) : List AppEv → AppState
  | [] => a
  | e :: t => runApp (appStep a e) t

/-- Concrete item used by the witnesses: the spec's scenario item
`{"text":"hello","sentiment":"positive","score":0.87}`. -/
def trendHello : TrendItem :=
  { text := "hello", sentiment := "positive", score := some (mkRat 87 100) }

/-- Concrete configured environment used by the witnesses. -/
def envSet : Env := { REACT_APP_BACKEND_URL := some "http://api.test" }

/-- Concrete unset environment used by the witnesses. -/
def envUnset : Env := { REACT_APP_BACKEND_URL := none }

/-- Concrete error object used by the witnesses: the spec's scenario of a
`500` response whose JSON body carries the error text `db down`. -/
def errDbDown : JsError := { message := "Request failed with status code 500", responseError := some "db down" }

/-- Concrete successful cycle input used by the witnesses. -/
def cycleGood : CycleInput :=
  { env := envSet, net := NetResponse.ok (Payload.arr [trendHello]), now := 1 }

/-- Concrete failing cycle input (transport failure) used by the witnesses. -/
def cycleBad : CycleInput :=
  { env := envSet, net := NetResponse.httpErr errDbDown, now := 2 }

/-! ## Characterisation of one fetch cycle of `src/unnamed/part_000` -/

theorem step_trends (i : CycleInput) (s : PollState) :
    (step i s).trends = (successData i).getD s.trends := by
  rcases i with ⟨env, net, now⟩
  cases hf : jsFalsy env.REACT_APP_BACKEND_URL <;>
    rcases net with d | e
  case false.ok =>
    rcases d with items | v <;>
      simp [step, fetchTrends, fetchSync, fetchResume, successData, startPhase,
        catchPhase, finallyPhase, hf]
  case false.httpErr =>
    simp [step, fetchTrends, fetchSync, fetchResume, successData, startPhase,
      catchPhase, finallyPhase, hf]
  case true.ok =>
    rcases d with items | v <;>
      simp [step, fetchTrends, fetchSync, fetchResume, successData, startPhase,
        catchPhase, finallyPhase, hf]
  case true.httpErr =>
    simp [step, fetchTrends, fetchSync, fetchResume, successData, startPhase,
      catchPhase, finallyPhase, hf]

theorem step_lastUpdated (i : CycleInput) (s : PollState) :
    (step i s).lastUpdated = latestOr (successTime i) s.lastUpdated := by
  rcases i with ⟨env, net, now⟩
  cases hf : jsFalsy env.REACT_APP_BACKEND_URL <;>
    rcases net with d | e <;>
    first
      | (rcases d with items | v <;>
          simp [step, fetchTrends, fetchSync, fetchResume, successTime, successData,
            startPhase, catchPhase, finallyPhase, latestOr, hf])
      | simp [step, fetchTrends, fetchSync, fetchResume, successTime, successData,
          startPhase, catchPhase, finallyPhase, latestOr, hf]

theorem step_isLoading (i : CycleInput) (s : PollState) :
    (step i s).isLoading = false := by
  rcases i with ⟨env, net, now⟩
  cases hf : jsFalsy env.REACT_APP_BACKEND_URL <;>
    rcases net with d | e <;>
    first
      | (rcases d with items | v <;>
          simp [step, fetchTrends, fetchSync, fetchResume, startPhase,
            catchPhase, finallyPhase, hf])
      | simp [step, fetchTrends, fetchSync, fetchResume, startPhase,
          catchPhase, finallyPhase, hf]

theorem step_error (i : CycleInput) (s : PollState) :
    (step i s).error = cycleErrorMessage i := by
  rcases i with ⟨env, net, now⟩
  cases hf : jsFalsy env.REACT_APP_BACKEND_URL <;>
    rcases net with d | e <;>
    first
      | (rcases d with items | v <;>
          simp [step, fetchTrends, fetchSync, fetchResume, cycleErrorMessage,
            thrownError, startPhase, catchPhase, finallyPhase, hf])
      | simp [step, fetchTrends, fetchSync, fetchResume, cycleErrorMessage,
          thrownError, startPhase, catchPhase, finallyPhase, hf]

theorem thrownError_of_not_succeeds (i : CycleInput) (e : JsError)
    (h : thrownError i = some e) : successData i = none := by
  rcases i with ⟨env, net, now⟩
  cases hf : jsFalsy env.REACT_APP_BACKEND_URL <;>
    rcases net with d | e2 <;>
    first
      | (rcases d with items | v <;>
          simp_all [thrownError, successData, hf])
      | simp_all [thrownError, successData, hf]

theorem successTime_of_not_succeeds (i : CycleInput)
    (h : cycleSucceeds i = false) : successTime i = none := by
  unfold cycleSucceeds at h
  unfold successTime
  cases hd : successData i
  · rfl
  · rw [hd] at h; simp at h

/-! ## Trace invariants for `src/unnamed/part_000` -/

theorem runCycles_append (l1 l2 : List CycleInput) (s : PollState) :
    runCycles (l1 ++ l2) s = runCycles l2 (runCycles l1 s) := by
  induction l1 generalizing s with
  | nil => rfl
  | cons i t ih => simp [runCycles, ih]

theorem trends_invariant (l : List CycleInput) (s : PollState) :
    (runCycles l s).trends = (lastSome successData l).getD s.trends := by
  induction l generalizing s with
  | nil => rfl
  | cons i t ih =>
    show (runCycles t (step i s)).trends = _
    rw [ih]
    cases ht : lastSome successData t
    · cases hd : successData i <;>
        simp [lastSome, ht, hd, step_trends i s]
    · simp [lastSome, ht]

theorem lastUpdated_invariant (l : List CycleInput) (s : PollState) :
    (runCycles l s).lastUpdated = latestOr (lastSome successTime l) s.lastUpdated := by
  induction l generalizing s with
  | nil => rfl
  | cons i t ih =>
    show (runCycles t (step i s)).lastUpdated = _
    rw [ih]
    cases ht : lastSome successTime t
    · cases hd : successTime i <;>
        simp [lastSome, latestOr, ht, hd, step_lastUpdated i s]
    · simp [lastSome, latestOr, ht]

theorem lastSome_ne_none {α : Type} (f : CycleInput → Option α) (l : List CycleInput) :
    lastSome f l ≠ none ↔ ∃ i ∈ l, f i ≠ none := by
  induction l with
  | nil => simp [lastSome]
  | cons i t ih =>
    cases ht : lastSome f t
    · rw [ht] at ih
      simp only [lastSome, ht]
      constructor
      · intro h
        exact ⟨i, by simp, h⟩
      · rintro ⟨j, hj, hfj⟩
        rcases List.mem_cons.mp hj with rfl | hjt
        · exact hfj
        · exact absurd (by simp at ih; exact ih j hjt) hfj
    · rw [ht] at ih
      simp only [lastSome, ht]
      constructor
      · intro _
        rcases ih.mp (by simp) with ⟨j, hj, hfj⟩
        exact ⟨j, List.mem_cons_of_mem i hj, hfj⟩
      · intro _
        simp

theorem runCycles_isLoading (l : List CycleInput) (s : PollState) (h : l ≠ []) :
    (runCycles l s).isLoading = false := by
  induction l generalizing s with
  | nil => exact absurd rfl h
  | cons i t ih =>
    cases t with
    | nil => exact step_isLoading i s
    | cons j u =>
      exact ih (step i s) (by simp)

/-! ## Characterisation of the `src/frontend/src/components/TrendingPosts.js` variant -/

theorem frontend_step_isLoading (i : CycleInput) (s : Frontend.PollState) :
    (Frontend.step i s).isLoading = false := by
  rcases i with ⟨env, net, now⟩
  rcases net with d | e <;>
    simp [Frontend.step, Frontend.fetchTrends, Frontend.startPhase, Frontend.finallyStep]

theorem frontend_step_lastUpdated (i : CycleInput) (s : Frontend.PollState) :
    (Frontend.step i s).lastUpdated = latestOr (Frontend.successTime i) s.lastUpdated := by
  rcases i with ⟨env, net, now⟩
  rcases net with d | e <;>
    simp [Frontend.step, Frontend.fetchTrends, Frontend.startPhase, Frontend.finallyStep,
      Frontend.successTime, Frontend.succeeds, latestOr]

theorem frontend_lastUpdated_invariant (l : List CycleInput) (s : Frontend.PollState) :
    (Frontend.runCycles l s).lastUpdated =
      latestOr (lastSome Frontend.successTime l) s.lastUpdated := by
  induction l generalizing s with
  | nil => rfl
  | cons i t ih =>
    show (Frontend.runCycles t (Frontend.step i s)).lastUpdated = _
    rw [ih]
    cases ht : lastSome Frontend.successTime t
    · cases hd : Frontend.successTime i <;>
        simp [lastSome, latestOr, ht, hd, frontend_step_lastUpdated i s]
    · simp [lastSome, latestOr, ht]

theorem frontend_runCycles_isLoading (l : List CycleInput) (s : Frontend.PollState)
    (h : l ≠ []) : (Frontend.runCycles l s).isLoading = false := by
  induction l generalizing s with
  | nil => exact absurd rfl h
  | cons i t ih =>
    cases t with
    | nil => exact frontend_step_isLoading i s
    | cons j u => exact ih (Frontend.step i s) (by simp)

theorem frontend_successTime_ne_none (i : CycleInput) :
    Frontend.successTime i ≠ none ↔ Frontend.succeeds i = true := by
  unfold Frontend.successTime
  by_cases h : Frontend.succeeds i = true <;> simp [h]

/-! ## The claims -/

/-- Claim C1: for every fetch cycle in which the backend base URL
configuration is unset, the cycle produces an error state — a non-empty
`error` naming the missing `REACT_APP_BACKEND_URL` — without issuing any
HTTP request; since the state is universally quantified this covers in
particular the very first cycle after mount. -/
theorem c1_config_unset_error_without_request (env : Env) (net : NetResponse) (now : Nat)
    (s : PollState) (h : jsFalsy env.REACT_APP_BACKEND_URL = true) :
    (fetchTrends env net now s).httpRequested = false ∧
    (fetchTrends env net now s).state.error = "REACT_APP_BACKEND_URL not set in .env" ∧
    (fetchTrends env net now s).state.error ≠ "" := by
  refine ⟨?_, ?_, ?_⟩ <;>
    simp [fetchTrends, fetchSync, startPhase, catchPhase, finallyPhase,
      displayedMessage, jsOr, h]

/-- Witness for C1 at the very first cycle after mount with the
configuration unset. -/
theorem c1_witness :
    jsFalsy envUnset.REACT_APP_BACKEND_URL = true ∧
    ((fetchTrends envUnset (NetResponse.ok (Payload.arr [trendHello])) 0 initialState).httpRequested = false ∧
     (fetchTrends envUnset (NetResponse.ok (Payload.arr [trendHello])) 0 initialState).state.error =
       "REACT_APP_BACKEND_URL not set in .env" ∧
     (fetchTrends envUnset (NetResponse.ok (Payload.arr [trendHello])) 0 initialState).state.error ≠ "") :=
  ⟨by decide,
   c1_config_unset_error_without_request envUnset (NetResponse.ok (Payload.arr [trendHello])) 0
     initialState (by decide)⟩

/-- Claim C2: a cycle whose HTTP request succeeds with a non-array body ends
in an error state with the schema message `Unexpected backend response` and
leaves `trends` exactly as it was before the cycle. -/
theorem c2_non_array_schema_error (env : Env) (v : String) (now : Nat) (s : PollState)
    (h : jsFalsy env.REACT_APP_BACKEND_URL = false) :
    (fetchTrends env (NetResponse.ok (Payload.nonArray v)) now s).state.trends = s.trends ∧
    (fetchTrends env (NetResponse.ok (Payload.nonArray v)) now s).state.error =
      "Unexpected backend response" ∧
    (fetchTrends env (NetResponse.ok (Payload.nonArray v)) now s).httpRequested = true := by
  refine ⟨?_, ?_, ?_⟩ <;>
    simp [fetchTrends, fetchSync, fetchResume, startPhase, catchPhase, finallyPhase,
      displayedMessage, jsOr, h]

/-- Witness for C2: a configured cycle receiving a non-array body. -/
theorem c2_witness :
    jsFalsy envSet.REACT_APP_BACKEND_URL = false ∧
    ((fetchTrends envSet (NetResponse.ok (Payload.nonArray "object")) 7 initialState).state.trends =
       initialState.trends ∧
     (fetchTrends envSet (NetResponse.ok (Payload.nonArray "object")) 7 initialState).state.error =
       "Unexpected backend response" ∧
     (fetchTrends envSet (NetResponse.ok (Payload.nonArray "object")) 7 initialState).httpRequested = true) :=
  ⟨by decide, c2_non_array_schema_error envSet "object" 7 initialState (by decide)⟩

/-- Claim C6: every fetch cycle — in both variants of the component, for
every outcome (success, config failure, schema failure, transport failure)
— ends with `isLoading = false`, because `setIsLoading(false)` sits in the
`finally` block. -/
theorem c6_loading_cleared_every_cycle (env : Env) (net : NetResponse) (now : Nat)
    (s : PollState) (s2 : Frontend.PollState) :
    (fetchTrends env net now s).state.isLoading = false ∧
    (Frontend.fetchTrends env net now s2).isLoading = false := by
  exact ⟨step_isLoading ⟨env, net, now⟩ s, frontend_step_isLoading ⟨env, net, now⟩ s2⟩

/-- Claim C8: a cycle that succeeds with an empty array renders the
"no trending posts found" placeholder body and shows no error. -/
theorem c8_empty_array_placeholder (env : Env) (now : Nat) (s : PollState)
    (h : jsFalsy env.REACT_APP_BACKEND_URL = false) :
    (render (fetchTrends env (NetResponse.ok (Payload.arr [])) now s).state).body =
      RenderBody.noResults ∧
    (fetchTrends env (NetResponse.ok (Payload.arr [])) now s).state.error = "" := by
  refine ⟨?_, ?_⟩ <;>
    simp [fetchTrends, fetchSync, fetchResume, startPhase, finallyPhase, render, h]

/-- Witness for C8: the spec's concrete scenario of a `200` with `[]`. -/
theorem c8_witness :
    jsFalsy envSet.REACT_APP_BACKEND_URL = false ∧
    ((render (fetchTrends envSet (NetResponse.ok (Payload.arr [])) 9 initialState).state).body =
       RenderBody.noResults ∧
     (fetchTrends envSet (NetResponse.ok (Payload.arr [])) 9 initialState).state.error = "") :=
  ⟨by decide, c8_empty_array_placeholder envSet 9 initialState (by decide)⟩

/-- Claim C3: a failing cycle appended to a history whose most recent
successful cycle delivered `d` leaves `trends = d` (stale data preserved)
while `error` becomes the new failure's message. -/
theorem c3_failed_refresh_keeps_last_success (pre : List CycleInput) (i : CycleInput)
    (e : JsError) (d : List TrendItem)
    (hfail : thrownError i = some e)
    (hsucc : lastSome successData pre = some d) :
    (runCycles (pre ++ [i]) initialState).trends = d ∧
    (runCycles (pre ++ [i]) initialState).error = displayedMessage e := by
  have hrun : runCycles (pre ++ [i]) initialState = step i (runCycles pre initialState) := by
    rw [runCycles_append]
    rfl
  constructor
  · rw [hrun, step_trends, thrownError_of_not_succeeds i e hfail]
    simp [trends_invariant pre initialState, hsucc]
  · rw [hrun, step_error]
    simp [cycleErrorMessage, hfail]

/-- Witness for C3: one successful cycle, then a `500` with a `db down`
error body; the stale item stays displayed and the error text is `db down`. -/
theorem c3_witness :
    thrownError cycleBad = some errDbDown ∧
    lastSome successData [cycleGood] = some [trendHello] ∧
    ((runCycles ([cycleGood] ++ [cycleBad]) initialState).trends = [trendHello] ∧
     (runCycles ([cycleGood] ++ [cycleBad]) initialState).error = displayedMessage errDbDown) :=
  ⟨by decide, by decide,
   c3_failed_refresh_keeps_last_success [cycleGood] cycleBad errDbDown [trendHello]
     (by decide) (by decide)⟩

/-- Claim C4: on every failing cycle the displayed message follows the
preference order of line 26 of `src/unnamed/part_000`: the server-supplied
`response.data.error` text when it is a non-empty string, else the error's
own `message` when non-empty, else the generic fallback. -/
theorem c4_error_message_preference (i : CycleInput) (s : PollState) (e : JsError)
    (h : thrownError i = some e) :
    (e.responseError.getD "" ≠ "" → (step i s).error = e.responseError.getD "") ∧
    (e.responseError.getD "" = "" → e.message ≠ "" → (step i s).error = e.message) ∧
    (e.responseError.getD "" = "" → e.message = "" →
      (step i s).error = "Could not load trends.") := by
  have he : (step i s).error = displayedMessage e := by
    rw [step_error]
    simp [cycleErrorMessage, h]
  refine ⟨?_, ?_, ?_⟩
  · intro h1
    rw [he]
    simp [displayedMessage, jsOr, h1]
  · intro h1 h2
    rw [he]
    simp [displayedMessage, jsOr, h1, h2]
  · intro h1 h2
    rw [he]
    simp [displayedMessage, jsOr, h1, h2]

/-- Witness for C4: the server-supplied text `db down` wins over the axios
message and the fallback. -/
theorem c4_witness :
    thrownError cycleBad = some errDbDown ∧
    ((errDbDown.responseError.getD "" ≠ "" →
       (step cycleBad initialState).error = errDbDown.responseError.getD "") ∧
     (errDbDown.responseError.getD "" = "" → errDbDown.message ≠ "" →
       (step cycleBad initialState).error = errDbDown.message) ∧
     (errDbDown.responseError.getD "" = "" → errDbDown.message = "" →
       (step cycleBad initialState).error = "Could not load trends.")) :=
  ⟨by decide, c4_error_message_preference cycleBad initialState errDbDown (by decide)⟩

/-- Claim C7: after a successful cycle with array `items`, the rendered body
shows exactly `items.map renderItem` — one entry per response item, in
response order — and each entry shows the item's sentiment, its text, and
its score via `toFixed2`, or the `N/A` placeholder when the score is
absent.  (The empty array shows zero entries via the placeholder body,
which claim C8 pins down.) -/
theorem c7_success_render_list (env : Env) (items : List TrendItem) (now : Nat) (s : PollState)
    (h : jsFalsy env.REACT_APP_BACKEND_URL = false) :
    entriesShown (render (fetchTrends env (NetResponse.ok (Payload.arr items)) now s).state).body
      = items.map renderItem ∧
    (entriesShown (render (fetchTrends env (NetResponse.ok (Payload.arr items)) now s).state).body).length
      = items.length ∧
    (∀ t : TrendItem, (renderItem t).sentiment = t.sentiment ∧ (renderItem t).text = t.text) ∧
    (∀ t : TrendItem, t.score = none → (renderItem t).score = "N/A") ∧
    (∀ (t : TrendItem) (q : Rat), t.score = some q → (renderItem t).score = toFixed2 q) := by
  have hst : (fetchTrends env (NetResponse.ok (Payload.arr items)) now s).state =
      { trends := items, isLoading := false, error := "", lastUpdated := some now } := by
    simp [fetchTrends, fetchSync, fetchResume, startPhase, finallyPhase, h]
  have h1 : entriesShown
      (render (fetchTrends env (NetResponse.ok (Payload.arr items)) now s).state).body
      = items.map renderItem := by
    rw [hst]
    cases items with
    | nil => simp [render, entriesShown]
    | cons a t => simp [render, entriesShown]
  refine ⟨h1, ?_, ?_, ?_, ?_⟩
  · rw [h1]
    exact List.length_map items renderItem
  · intro t
    exact ⟨rfl, rfl⟩
  · intro t ht
    simp [renderItem, ht]
  · intro t q hq
    simp [renderItem, hq]

/-- Witness for C7: the spec's scenario item renders as one entry showing
`positive`, `hello` and `0.87`. -/
theorem c7_witness :
    jsFalsy envSet.REACT_APP_BACKEND_URL = false ∧
    entriesShown (render (fetchTrends envSet (NetResponse.ok (Payload.arr [trendHello])) 5 initialState).state).body
      = [trendHello].map renderItem ∧
    [trendHello].map renderItem = [{ sentiment := "positive", text := "hello", score := "0.87" }] :=
  ⟨by decide,
   (c7_success_render_list envSet [trendHello] 5 initialState (by decide)).1,
   by decide⟩

theorem successTime_ne_none (i : CycleInput) :
    successTime i ≠ none ↔ cycleSucceeds i = true := by
  cases hd : successData i <;> simp [successTime, cycleSucceeds, hd]

/-- Claim C10: `lastUpdated` equals the timestamp of the most recent
successful cycle — so the displayed `Updated at` value is non-null exactly
when some cycle has succeeded, a failing cycle never changes it, and it
keeps showing the last success's time through later errors. -/
theorem c10_lastUpdated_only_on_success (l : List CycleInput) (i : CycleInput) (s : PollState) :
    (runCycles l initialState).lastUpdated = lastSome successTime l ∧
    ((runCycles l initialState).lastUpdated ≠ none ↔ ∃ j ∈ l, cycleSucceeds j = true) ∧
    (cycleSucceeds i = false → (step i s).lastUpdated = s.lastUpdated) ∧
    (render (runCycles l initialState)).updatedAt = lastSome successTime l := by
  have h1 : (runCycles l initialState).lastUpdated = lastSome successTime l := by
    rw [lastUpdated_invariant]
    cases lastSome successTime l <;> simp [latestOr, initialState]
  refine ⟨h1, ?_, ?_, ?_⟩
  · rw [h1, lastSome_ne_none]
    constructor
    · rintro ⟨j, hj, hne⟩
      exact ⟨j, hj, (successTime_ne_none j).mp hne⟩
    · rintro ⟨j, hj, hsj⟩
      exact ⟨j, hj, (successTime_ne_none j).mpr hsj⟩
  · intro hc
    rw [step_lastUpdated, successTime_of_not_succeeds i hc]
    rfl
  · show (runCycles l initialState).lastUpdated = _
    exact h1

/-- Witness for C10: after a success followed by a failure, `lastUpdated`
still holds the success's timestamp. -/
theorem c10_witness :
    (runCycles [cycleGood, cycleBad] initialState).lastUpdated =
      lastSome successTime [cycleGood, cycleBad] ∧
    (cycleSucceeds cycleBad = false ∧
      (step cycleBad initialState).lastUpdated = initialState.lastUpdated) ∧
    lastSome successTime [cycleGood, cycleBad] = some 1 :=
  ⟨(c10_lastUpdated_only_on_success [cycleGood, cycleBad] cycleBad initialState).1,
   ⟨by decide,
    (c10_lastUpdated_only_on_success [cycleGood, cycleBad] cycleBad initialState).2.2.1 (by decide)⟩,
   by decide⟩

/-- Claim C5, which holds of the `src/frontend/src/components/TrendingPosts.js`
variant (the `src/unnamed/part_000` variant instead sets `isLoading`
unconditionally): at the start of every fetch cycle the error is cleared,
and after the start phase `isLoading` is true exactly when no prior cycle
has succeeded — a refresh over already-displayed data does not re-enter the
loading state. -/
theorem c5_loading_only_before_first_success (l : List CycleInput) :
    (Frontend.startPhase (Frontend.runCycles l Frontend.initialState)).error = "" ∧
    ((Frontend.startPhase (Frontend.runCycles l Frontend.initialState)).isLoading = true ↔
      ∀ i ∈ l, Frontend.succeeds i = false) := by
  refine ⟨rfl, ?_⟩
  have hlu : (Frontend.runCycles l Frontend.initialState).lastUpdated =
      lastSome Frontend.successTime l := by
    rw [frontend_lastUpdated_invariant]
    cases lastSome Frontend.successTime l <;> simp [latestOr, Frontend.initialState]
  cases ht : lastSome Frontend.successTime l
  · have hnone : ∀ i ∈ l, Frontend.succeeds i = false := by
      intro i hi
      by_contra hc
      have hs : Frontend.succeeds i = true := by
        cases hv : Frontend.succeeds i
        · exact absurd hv hc
        · rfl
      have : lastSome Frontend.successTime l ≠ none :=
        (lastSome_ne_none Frontend.successTime l).mpr
          ⟨i, hi, (frontend_successTime_ne_none i).mpr hs⟩
      exact this ht
    simp only [Frontend.startPhase, hlu, ht, reduceIte]
    simp only [true_iff]
    exact hnone
  · have hex : ∃ j ∈ l, Frontend.succeeds j = true := by
      rcases (lastSome_ne_none Frontend.successTime l).mp (by rw [ht]; simp) with ⟨j, hj, hne⟩
      exact ⟨j, hj, (frontend_successTime_ne_none j).mp hne⟩
    have hne : l ≠ [] := by
      rcases hex with ⟨j, hj, _⟩
      intro hl
      rw [hl] at hj
      exact absurd hj (List.not_mem_nil j)
    have hload : (Frontend.runCycles l Frontend.initialState).isLoading = false :=
      frontend_runCycles_isLoading l Frontend.initialState hne
    rcases hex with ⟨j, hj, hsj⟩
    simp only [Frontend.startPhase, hlu, ht]
    simp only [reduceIte, hload]
    constructor
    · intro hfalse
      exact absurd hfalse (by simp)
    · intro hall
      exact absurd (hall j hj) (by simp [hsj])

/-- Witness for C5: after one successful cycle the start of the next cycle
clears the error and does not re-enter the loading state. -/
theorem c5_witness :
    (Frontend.startPhase (Frontend.runCycles [cycleGood] Frontend.initialState)).error = "" ∧
    (Frontend.startPhase (Frontend.runCycles [cycleGood] Frontend.initialState)).isLoading = false := by
  have h := c5_loading_only_before_first_success [cycleGood]
  refine ⟨h.1, ?_⟩
  cases hv : (Frontend.startPhase (Frontend.runCycles [cycleGood] Frontend.initialState)).isLoading
  · rfl
  · have hall := h.2.mp hv
    have := hall cycleGood (by simp)
    exact absurd this (by decide)

/-- Claim C9 fails on the code: the effect cleanup only calls
`clearInterval`, so a fetch in flight at teardown still applies its state
updates when it resolves.  Concretely: mount with the configuration set and
one request in flight, unmount (timer off, component gone, `trends` still
empty), then the response arrives — the completion handler runs unguarded,
stores the items and the timestamp, and one state update is applied after
unmount. -/
theorem c9_inflight_fetch_updates_after_unmount :
    (appStep (mountApp envSet (NetResponse.ok (Payload.arr [trendHello])) 5) AppEv.unmount).mounted
      = false ∧
    (appStep (mountApp envSet (NetResponse.ok (Payload.arr [trendHello])) 5) AppEv.unmount).timerActive
      = false ∧
    (appStep (mountApp envSet (NetResponse.ok (Payload.arr [trendHello])) 5) AppEv.unmount).comp.trends
      = [] ∧
    (appStep (appStep (mountApp envSet (NetResponse.ok (Payload.arr [trendHello])) 5) AppEv.unmount)
        AppEv.resolveNext).comp.trends = [trendHello] ∧
    (appStep (appStep (mountApp envSet (NetResponse.ok (Payload.arr [trendHello])) 5) AppEv.unmount)
        AppEv.resolveNext).comp.lastUpdated = some 5 ∧
    (appStep (appStep (mountApp envSet (NetResponse.ok (Payload.arr [trendHello])) 5) AppEv.unmount)
        AppEv.resolveNext).postUnmountUpdates = 1 := by
  decide
